import Mathlib

set_option maxRecDepth 100000

/-!
Shallow embedding of the wave-shader application in `src/src/App.js`
(react-three-fiber demo).  GLSL `float` arithmetic is modelled by exact
rational arithmetic over `ℚ`; GLSL vectors become records of rationals.
The simplex-noise function `snoise3` is the module
`glsl-noise/simplex/3d.glsl` (Ashima Arts / Ian McEwan `webgl-noise`,
packaged as `hughsk/glsl-noise`), which the line
`#pragma glslify: snoise3 = require(glsl-noise/simplex/3d)` in the vertex
shader inlines into the shader program at build time; it is transcribed
here statement by statement.
-/

/-- GLSL `vec2`, over exact rationals. -/
structure Vec2 where
  x : ℚ
  y : ℚ
deriving DecidableEq, Repr

/-- GLSL `vec3`, over exact rationals. -/
structure Vec3 where
  x : ℚ
  y : ℚ
  z : ℚ
deriving DecidableEq, Repr

/-- GLSL `vec4`, over exact rationals. -/
structure Vec4 where
  x : ℚ
  y : ℚ
  z : ℚ
  w : ℚ
deriving DecidableEq, Repr

/-- GLSL `floor`: the greatest integer not exceeding `q` (as a rational).
`Int.fdiv` is floor division, so for a normalised rational `num/den`
(`den > 0`) it computes exactly `⌊q⌋`. -/
def floorQ (q : ℚ) : ℚ := ((Int.fdiv q.num (q.den : ℤ) : ℤ) : ℚ)

/-- GLSL `step(edge, x)`: `0.0` if `x < edge`, else `1.0`. -/
def stepQ (edge x : ℚ) : ℚ := if x < edge then 0 else 1

/-- GLSL `abs`. -/
def absQ (q : ℚ) : ℚ := if q < 0 then -q else q

/-- GLSL `min`. -/
def minQ (a b : ℚ) : ℚ := if b < a then b else a

/-- GLSL `max`. -/
def maxQ (a b : ℚ) : ℚ := if a < b then b else a

/-- GLSL `dot` on `vec3`. -/
def dot3 (a b : Vec3) : ℚ := a.x * b.x + a.y * b.y + a.z * b.z

/-- GLSL `dot` on `vec4`. -/
def dot4 (a b : Vec4) : ℚ := a.x * b.x + a.y * b.y + a.z * b.z + a.w * b.w

/-- Componentwise floor on `vec3`. -/
def v3floor (a : Vec3) : Vec3 := ⟨floorQ a.x, floorQ a.y, floorQ a.z⟩

/-- Scalar multiplication on `vec3` (GLSL `float * vec3`). -/
def v3scale (s : ℚ) (a : Vec3) : Vec3 := ⟨s * a.x, s * a.y, s * a.z⟩

/-- `mod289` on `vec3` from `glsl-noise/simplex/3d.glsl`:
`x - floor(x * (1.0 / 289.0)) * 289.0`, componentwise. -/
def mod289v3 (a : Vec3) : Vec3 :=
  ⟨a.x - floorQ (a.x * (1 / 289)) * 289,
   a.y - floorQ (a.y * (1 / 289)) * 289,
   a.z - floorQ (a.z * (1 / 289)) * 289⟩

/-- `mod289` on `vec4` from `glsl-noise/simplex/3d.glsl`. -/
def mod289v4 (a : Vec4) : Vec4 :=
  ⟨a.x - floorQ (a.x * (1 / 289)) * 289,
   a.y - floorQ (a.y * (1 / 289)) * 289,
   a.z - floorQ (a.z * (1 / 289)) * 289,
   a.w - floorQ (a.w * (1 / 289)) * 289⟩

/-- `permute` from `glsl-noise/simplex/3d.glsl`:
`mod289(((x*34.0)+1.0)*x)`, componentwise on `vec4`. -/
def permute (a : Vec4) : Vec4 :=
  mod289v4 ⟨((a.x * 34) + 1) * a.x, ((a.y * 34) + 1) * a.y,
            ((a.z * 34) + 1) * a.z, ((a.w * 34) + 1) * a.w⟩

/-- `taylorInvSqrt` from `glsl-noise/simplex/3d.glsl`:
`1.79284291400159 - 0.85373472095314 * r`, componentwise. -/
def taylorInvSqrt (r : Vec4) : Vec4 :=
  let a : ℚ := 179284291400159 / 100000000000000
  let b : ℚ := 85373472095314 / 100000000000000
  ⟨a - b * r.x, a - b * r.y, a - b * r.z, a - b * r.w⟩

/-- `snoise` from `glsl-noise/simplex/3d.glsl` (the function the vertex
shader imports as `snoise3`), transcribed statement by statement with
GLSL swizzles written out componentwise.  All decimal literals of the
GLSL source are represented as the exact rationals they denote. -/
def snoise3 (v : Vec3) : ℚ :=
  -- const vec2 C = vec2(1.0/6.0, 1.0/3.0); const vec4 D = vec4(0.0, 0.5, 1.0, 2.0);
  let Cx : ℚ := 1 / 6
  let Cy : ℚ := 1 / 3
  -- First corner: i = floor(v + dot(v, C.yyy)); x0 = v - i + dot(i, C.xxx);
  let sk : ℚ := dot3 v ⟨Cy, Cy, Cy⟩
  let i : Vec3 := v3floor ⟨v.x + sk, v.y + sk, v.z + sk⟩
  let un : ℚ := dot3 i ⟨Cx, Cx, Cx⟩
  let x0 : Vec3 := ⟨v.x - i.x + un, v.y - i.y + un, v.z - i.z + un⟩
  -- Other corners: g = step(x0.yzx, x0.xyz); l = 1.0 - g;
  let g : Vec3 := ⟨stepQ x0.y x0.x, stepQ x0.z x0.y, stepQ x0.x x0.z⟩
  let l : Vec3 := ⟨1 - g.x, 1 - g.y, 1 - g.z⟩
  -- i1 = min(g.xyz, l.zxy); i2 = max(g.xyz, l.zxy);
  let i1 : Vec3 := ⟨minQ g.x l.z, minQ g.y l.x, minQ g.z l.y⟩
  let i2 : Vec3 := ⟨maxQ g.x l.z, maxQ g.y l.x, maxQ g.z l.y⟩
  -- x1 = x0 - i1 + C.xxx; x2 = x0 - i2 + C.yyy; x3 = x0 - D.yyy;
  let x1 : Vec3 := ⟨x0.x - i1.x + Cx, x0.y - i1.y + Cx, x0.z - i1.z + Cx⟩
  let x2 : Vec3 := ⟨x0.x - i2.x + Cy, x0.y - i2.y + Cy, x0.z - i2.z + Cy⟩
  let x3 : Vec3 := ⟨x0.x - 1 / 2, x0.y - 1 / 2, x0.z - 1 / 2⟩
  -- Permutations: i = mod289(i);
  let im : Vec3 := mod289v3 i
  -- p = permute(permute(permute(i.z + vec4(0,i1.z,i2.z,1)) + i.y + vec4(0,i1.y,i2.y,1))
  --             + i.x + vec4(0,i1.x,i2.x,1));
  let pA : Vec4 := ⟨im.z + 0, im.z + i1.z, im.z + i2.z, im.z + 1⟩
  let pB : Vec4 := permute pA
  let pC : Vec4 := ⟨pB.x + im.y + 0, pB.y + im.y + i1.y, pB.z + im.y + i2.y, pB.w + im.y + 1⟩
  let pD : Vec4 := permute pC
  let pE : Vec4 := ⟨pD.x + im.x + 0, pD.y + im.x + i1.x, pD.z + im.x + i2.x, pD.w + im.x + 1⟩
  let p : Vec4 := permute pE
  -- float n_ = 0.142857142857; vec3 ns = n_ * D.wyz - D.xzx;
  let n7 : ℚ := 142857142857 / 1000000000000
  let nsx : ℚ := n7 * 2 - 0
  let nsy : ℚ := n7 * (1 / 2) - 1
  let nsz : ℚ := n7 * 1 - 0
  -- j = p - 49.0 * floor(p * ns.z * ns.z);
  let j : Vec4 := ⟨p.x - 49 * floorQ (p.x * nsz * nsz), p.y - 49 * floorQ (p.y * nsz * nsz),
                   p.z - 49 * floorQ (p.z * nsz * nsz), p.w - 49 * floorQ (p.w * nsz * nsz)⟩
  -- x_ = floor(j * ns.z); y_ = floor(j - 7.0 * x_);
  let xg : Vec4 := ⟨floorQ (j.x * nsz), floorQ (j.y * nsz), floorQ (j.z * nsz), floorQ (j.w * nsz)⟩
  let yg : Vec4 := ⟨floorQ (j.x - 7 * xg.x), floorQ (j.y - 7 * xg.y),
                    floorQ (j.z - 7 * xg.z), floorQ (j.w - 7 * xg.w)⟩
  -- x = x_ * ns.x + ns.yyyy; y = y_ * ns.x + ns.yyyy; h = 1.0 - abs(x) - abs(y);
  let xv : Vec4 := ⟨xg.x * nsx + nsy, xg.y * nsx + nsy, xg.z * nsx + nsy, xg.w * nsx + nsy⟩
  let yv : Vec4 := ⟨yg.x * nsx + nsy, yg.y * nsx + nsy, yg.z * nsx + nsy, yg.w * nsx + nsy⟩
  let h : Vec4 := ⟨1 - absQ xv.x - absQ yv.x, 1 - absQ xv.y - absQ yv.y,
                   1 - absQ xv.z - absQ yv.z, 1 - absQ xv.w - absQ yv.w⟩
  -- b0 = vec4(x.xy, y.xy); b1 = vec4(x.zw, y.zw);
  let b0 : Vec4 := ⟨xv.x, xv.y, yv.x, yv.y⟩
  let b1 : Vec4 := ⟨xv.z, xv.w, yv.z, yv.w⟩
  -- s0 = floor(b0)*2.0 + 1.0; s1 = floor(b1)*2.0 + 1.0; sh = -step(h, vec4(0.0));
  let s0 : Vec4 := ⟨floorQ b0.x * 2 + 1, floorQ b0.y * 2 + 1, floorQ b0.z * 2 + 1, floorQ b0.w * 2 + 1⟩
  let s1 : Vec4 := ⟨floorQ b1.x * 2 + 1, floorQ b1.y * 2 + 1, floorQ b1.z * 2 + 1, floorQ b1.w * 2 + 1⟩
  let sh : Vec4 := ⟨-stepQ h.x 0, -stepQ h.y 0, -stepQ h.z 0, -stepQ h.w 0⟩
  -- a0 = b0.xzyw + s0.xzyw * sh.xxyy; a1 = b1.xzyw + s1.xzyw * sh.zzww;
  let a0 : Vec4 := ⟨b0.x + s0.x * sh.x, b0.z + s0.z * sh.x, b0.y + s0.y * sh.y, b0.w + s0.w * sh.y⟩
  let a1 : Vec4 := ⟨b1.x + s1.x * sh.z, b1.z + s1.z * sh.z, b1.y + s1.y * sh.w, b1.w + s1.w * sh.w⟩
  -- p0 = vec3(a0.xy, h.x); p1 = vec3(a0.zw, h.y); p2 = vec3(a1.xy, h.z); p3 = vec3(a1.zw, h.w);
  let p0 : Vec3 := ⟨a0.x, a0.y, h.x⟩
  let p1 : Vec3 := ⟨a0.z, a0.w, h.y⟩
  let p2 : Vec3 := ⟨a1.x, a1.y, h.z⟩
  let p3 : Vec3 := ⟨a1.z, a1.w, h.w⟩
  -- Normalise gradients: norm = taylorInvSqrt(vec4(dot(p0,p0), ..., dot(p3,p3)));
  let norm : Vec4 := taylorInvSqrt ⟨dot3 p0 p0, dot3 p1 p1, dot3 p2 p2, dot3 p3 p3⟩
  let q0 : Vec3 := v3scale norm.x p0
  let q1 : Vec3 := v3scale norm.y p1
  let q2 : Vec3 := v3scale norm.z p2
  let q3 : Vec3 := v3scale norm.w p3
  -- m = max(0.6 - vec4(dot(x0,x0), dot(x1,x1), dot(x2,x2), dot(x3,x3)), 0.0); m = m * m;
  let m : Vec4 := ⟨maxQ (3 / 5 - dot3 x0 x0) 0, maxQ (3 / 5 - dot3 x1 x1) 0,
                   maxQ (3 / 5 - dot3 x2 x2) 0, maxQ (3 / 5 - dot3 x3 x3) 0⟩
  let mm : Vec4 := ⟨m.x * m.x, m.y * m.y, m.z * m.z, m.w * m.w⟩
  -- return 42.0 * dot(m*m, vec4(dot(p0,x0), dot(p1,x1), dot(p2,x2), dot(p3,x3)));
  42 * dot4 ⟨mm.x * mm.x, mm.y * mm.y, mm.z * mm.z, mm.w * mm.w⟩
        ⟨dot3 q0 x0, dot3 q1 x1, dot3 q2 x2, dot3 q3 x3⟩

/-- Output interface of the vertex shader of `WaveShaderMaterial`:
`gl_Position` plus the two varyings `vUv` and `vWave`. -/
structure VertexOut where
  glPosition : Vec4
  vUv : Vec2
  vWave : ℚ
deriving DecidableEq, Repr

/-- The local `pos` of the vertex shader after its mutation:
`vec3 pos = position; pos.z += snoise3(vec3(pos.x * noiseFreq + uTime, pos.y, pos.z)) * noiseAmp;`
with `noiseFreq = 2.5` and `noiseAmp = 0.7`. -/
def displacedPos (uTime : ℚ) (position : Vec3) : Vec3 :=
  let noiseFreq : ℚ := 5 / 2
  let noiseAmp : ℚ := 7 / 10
  let noisePos : Vec3 := ⟨position.x * noiseFreq + uTime, position.y, position.z⟩
  ⟨position.x, position.y, position.z + snoise3 noisePos * noiseAmp⟩

/-- The vertex shader of `WaveShaderMaterial`.  `projectionMatrix` and
`modelViewMatrix` are the built-in three.js uniforms, modelled as the
transformations they apply to a `vec4`; `position` and `uv` are the
built-in vertex attributes.  `vUv = uv`, the displaced `pos` feeds both
`vWave = pos.z` and `gl_Position = projectionMatrix * modelViewMatrix * vec4(pos, 1.0)`. -/
def vertexShader (projectionMatrix modelViewMatrix : Vec4 → Vec4)
    (uTime : ℚ) (position : Vec3) (uv : Vec2) : VertexOut :=
  let pos := displacedPos uTime position
  { glPosition := projectionMatrix (modelViewMatrix ⟨pos.x, pos.y, pos.z, 1⟩),
    vUv := uv,
    vWave := pos.z }

/-- The fragment shader of `WaveShaderMaterial`:
`float wave = vWave * 0.1; vec3 texture = texture2D(uTexture, vUv + wave).rgb;
gl_FragColor = vec4(texture, 1.0);`.  The bound sampler `uTexture` is
modelled as a function from UV coordinates to RGBA samples; GLSL
`vec2 + float` adds the scalar to each component.  `uColor` and `uTime`
are declared uniforms of the fragment stage and are threaded through
even though the body reads neither. -/
def fragmentShader (uColor : Vec3) (uTime : ℚ) (uTexture : Vec2 → Vec4)
    (vUv : Vec2) (vWave : ℚ) : Vec4 :=
  let wave : ℚ := vWave * (1 / 10)
  let sample : Vec4 := uTexture ⟨vUv.x + wave, vUv.y + wave⟩
  ⟨sample.x, sample.y, sample.z, 1⟩

/-- Color produced for the fragment that lies exactly at a given vertex:
the vertex stage runs on the vertex's `position` and `uv`, and the
fragment stage receives that vertex's varying values (interpolation at
the vertex itself is the identity).  The camera matrices only affect
`gl_Position`, never the color, so they are irrelevant here. -/
def pipelineColor (uTime : ℚ) (position : Vec3) (uv : Vec2)
    (uTexture : Vec2 → Vec4) (uColor : Vec3) : Vec4 :=
  let vo := vertexShader id id uTime position uv
  fragmentShader uColor uTime uTexture vo.vUv vo.vWave

/-- The uniform set of one `WaveShaderMaterial` instance
(`{ uTime, uColor, uTexture }` from the `shaderMaterial` call). -/
structure Material where
  uTime : ℚ
  uColor : Vec3
  uTexture : Vec2 → Vec4

/-- CSS color `"hotpink"` (`#ff69b4`), as the RGB triple three.js builds
from it: `(255, 105, 180) / 255`. -/
def hotpink : Vec3 := ⟨1, 7 / 17, 12 / 17⟩

/-- The body of the `useFrame` callback applied to a mounted material:
`ref.current.uTime = clock.getElapsedTime()` writes the elapsed time
into the material's `uTime` uniform. -/
def updateMaterial (m : Material) (elapsed : ℚ) : Material :=
  { m with uTime := elapsed }

/-- Arguments of `planeBufferGeometry`: width, height, widthSegments,
heightSegments. -/
structure PlaneGeometry where
  width : ℚ
  height : ℚ
  widthSegments : ℕ
  heightSegments : ℕ
deriving DecidableEq, Repr

/-- `<planeBufferGeometry args={[0.4, 0.6, 16, 16]} />`. -/
def wavePlaneGeometry : PlaneGeometry := ⟨2 / 5, 3 / 5, 16, 16⟩

/-- The material the `Wave` component constructs:
`<waveShaderMaterial uColor={"hotpink"} uTexture={image} />`, with the
`uTime` default `0.0` from the `shaderMaterial` call. -/
def waveMaterial (image : Vec2 → Vec4) : Material :=
  { uTime := 0, uColor := hotpink, uTexture := image }

/-- A node of the three.js scene graph built by the JSX (the only node
kind this app creates is a mesh: geometry plus material). -/
inductive SceneNode where
  | mesh (geometry : PlaneGeometry) (material : Material)

/-- The mesh returned by the `Wave` component once the texture `image`
has loaded. -/
def waveMesh (image : Vec2 → Vec4) : SceneNode :=
  SceneNode.mesh wavePlaneGeometry (waveMaterial image)

/-- Mounted state of the `Wave` mesh: its geometry and its material. -/
structure MeshState where
  geometry : PlaneGeometry
  material : Material

/-- One display tick of the render loop acting on the mounted mesh: the
`useFrame` callback writes the clock into the material's `uTime` and
touches nothing else. -/
def frameTick (s : MeshState) (elapsed : ℚ) : MeshState :=
  { s with material := updateMaterial s.material elapsed }

/-- The `useFrame` callback as written, including its unguarded
dereference: `ref.current.uTime = clock.getElapsedTime()`.  Before the
material mounts, `ref.current` is `undefined` (modelled as `none`) and
the property write throws a `TypeError` instead of being skipped. -/
def frameCallback (refCurrent : Option Material) (elapsed : ℚ) : Except String Material :=
  match refCurrent with
  | none => Except.error "TypeError: cannot set properties of undefined"
  | some m => Except.ok (updateMaterial m elapsed)

/-- State of the one-shot asynchronous texture load started by
`useLoader(THREE.TextureLoader, [url])`. -/
inductive LoadState where
  | pending
  | failed
  | resolved (image : Vec2 → Vec4)

/-- Modelled from the spec: the `Suspense`/`useLoader` semantics live in
React and `@react-three/fiber`, not under `src/`.  Per the spec, while
the texture load is pending the renderable's place shows the empty
fallback (`<Suspense fallback={null}>`), a load that fails or never
resolves leaves the scene permanently blank with no error channel, and
once the load resolves the `Wave` JSX from `src/src/App.js` renders its
single mesh. -/
def renderScene : LoadState → List SceneNode
  | LoadState.pending => []
  | LoadState.failed => []
  | LoadState.resolved image => [waveMesh image]

/-- DOM children rendered by `App` next to each other inside the
fragment. -/
inductive DomNode where
  | heading (text : String)
  | canvasSurface
  | textNode (text : String)
deriving DecidableEq, Repr

/-- The fragment returned by `App`:
`<><h1>Lorem Ipsum Dolor</h1><Scene />;</>`.  The `h1` renders the
heading, `<Scene />` renders the `Canvas` element, and the bare `;`
after `<Scene />` sits in JSX children position on the same line, so it
is kept as a literal text child `";"` (JSX only drops whitespace-only
text). -/
def appDom : List DomNode :=
  [DomNode.heading "Lorem Ipsum Dolor", DomNode.canvasSurface, DomNode.textNode ";"]

/-- Complete input set of one shader execution: the three uniforms of
`WaveShaderMaterial`, the camera matrices, and the vertex attributes. -/
structure ShaderInputs where
  uTime : ℚ
  uColor : Vec3
  uTexture : Vec2 → Vec4
  projectionMatrix : Vec4 → Vec4
  modelViewMatrix : Vec4 → Vec4
  position : Vec3
  uv : Vec2

/-- One full evaluation of the shader program: the vertex stage's
outputs and the fragment color at that vertex. -/
def evalShader (i : ShaderInputs) : VertexOut × Vec4 :=
  let vo := vertexShader i.projectionMatrix i.modelViewMatrix i.uTime i.position i.uv
  (vo, fragmentShader i.uColor i.uTime i.uTexture vo.vUv vo.vWave)

/-- A concrete texture used to evaluate the embedding on explicit
inputs: the sample at `(u, v)` is `(u, v, 0, 1)`, so distinct lookup
coordinates yield distinct samples. -/
def demoTex : Vec2 → Vec4 := fun p => ⟨p.x, p.y, 0, 1⟩

/-- A concrete full shader input set. -/
def demoInputs : ShaderInputs :=
  { uTime := 1, uColor := hotpink, uTexture := demoTex,
    projectionMatrix := id, modelViewMatrix := id,
    position := ⟨0, 0, 0⟩, uv := ⟨1 / 2, 1 / 2⟩ }

/-- UV coordinate actually sampled for the center vertex at
`elapsedTime = 0`: `0.5` shifted by `wave = snoise3(0,0,0) * 0.7 * 0.1`
in both components. -/
def centerSampleUv : Vec2 :=
  ⟨1 / 2 + snoise3 ⟨0, 0, 0⟩ * (7 / 10) * (1 / 10),
   1 / 2 + snoise3 ⟨0, 0, 0⟩ * (7 / 10) * (1 / 10)⟩

/-- Claim C1: for every vertex with model-space position `(x, y, z)` and
every `elapsedTime` value `t`, the vertex stage's displaced position
keeps `x` and `y` and sets `z` to
`z + snoise3(x * 2.5 + t, y, z) * 0.7` exactly, and the displaced `z`
and the vertex's UV coordinate are passed forward to the fragment stage
as the varyings `vWave` and `vUv`. -/
theorem vertex_displacement_exact (projectionMatrix modelViewMatrix : Vec4 → Vec4)
    (uTime : ℚ) (position : Vec3) (uv : Vec2) :
    (displacedPos uTime position).x = position.x ∧
    (displacedPos uTime position).y = position.y ∧
    (displacedPos uTime position).z
      = position.z + snoise3 ⟨position.x * (5 / 2) + uTime, position.y, position.z⟩ * (7 / 10) ∧
    (vertexShader projectionMatrix modelViewMatrix uTime position uv).vWave
      = (displacedPos uTime position).z ∧
    (vertexShader projectionMatrix modelViewMatrix uTime position uv).vUv = uv :=
  ⟨rfl, rfl, rfl, rfl, rfl⟩

/-- Claim C2: the fragment stage computes `wave = vWave * 0.1`, samples
the bound texture at `vUv + (wave, wave)` (the same scalar offset added
to both components), and outputs that sample's RGB with alpha exactly
`1`; the texture's own alpha channel is discarded. -/
theorem fragment_wave_offset_sampling (uColor : Vec3) (uTime : ℚ)
    (uTexture : Vec2 → Vec4) (vUv : Vec2) (vWave : ℚ) :
    fragmentShader uColor uTime uTexture vUv vWave
      = ⟨(uTexture ⟨vUv.x + vWave * (1 / 10), vUv.y + vWave * (1 / 10)⟩).x,
         (uTexture ⟨vUv.x + vWave * (1 / 10), vUv.y + vWave * (1 / 10)⟩).y,
         (uTexture ⟨vUv.x + vWave * (1 / 10), vUv.y + vWave * (1 / 10)⟩).z,
         1⟩ :=
  rfl

/-- Claim C3, counterexample: at `elapsedTime = 0` the noise sampled for
the center vertex `(0,0,0)` is `snoise3(0,0,0) ≠ 0` (it is ≈ `-0.4122`),
so for a concrete texture whose samples differ at distinct coordinates
the fragment output at the UV `(0.5, 0.5)` vertex does not equal the
texture's sample at `(0.5, 0.5)`. -/
theorem center_vertex_sample_shifted :
    snoise3 ⟨0, 0, 0⟩ ≠ 0 ∧
    pipelineColor 0 ⟨0, 0, 0⟩ ⟨1 / 2, 1 / 2⟩ demoTex ⟨0, 0, 0⟩ ≠ demoTex ⟨1 / 2, 1 / 2⟩ :=
  ⟨of_decide_eq_true (by with_unfolding_all rfl),
   of_decide_eq_true (by with_unfolding_all rfl)⟩

/-- Claim C3, amended: at `elapsedTime = 0`, at the vertex with UV
`(0.5, 0.5)` and model-space position `(0, 0, 0)`, the noise
displacement is `snoise3(0,0,0) * 0.7` with `snoise3(0,0,0) ≈ -0.4122`,
so `wave = snoise3(0,0,0) * 0.7 * 0.1 ≈ -0.02885` and the fragment
output equals the texture's sample at
`(0.5 + wave, 0.5 + wave) ≈ (0.47115, 0.47115)` (with alpha `1`), for
every texture and every tint color. -/
theorem center_vertex_sample_exact (tex : Vec2 → Vec4) (uColor : Vec3) :
    pipelineColor 0 ⟨0, 0, 0⟩ ⟨1 / 2, 1 / 2⟩ tex uColor
      = ⟨(tex centerSampleUv).x, (tex centerSampleUv).y, (tex centerSampleUv).z, 1⟩ := by
  with_unfolding_all rfl

/-- Claim C4: the tint color uniform `uColor` has no effect on the
fragment output: any two values of it give identical colors when all
other inputs agree. -/
theorem uColor_dead_parameter (c1 c2 : Vec3) (uTime : ℚ)
    (uTexture : Vec2 → Vec4) (vUv : Vec2) (vWave : ℚ) :
    fragmentShader c1 uTime uTexture vUv vWave = fragmentShader c2 uTime uTexture vUv vWave :=
  rfl

/-- Claim C5: a display tick writes the clock's elapsed time into the
material's `uTime` and mutates nothing else: tint color, texture and
geometry are unchanged. -/
theorem frame_tick_only_time (s : MeshState) (elapsed : ℚ) :
    (frameTick s elapsed).material.uTime = elapsed ∧
    (frameTick s elapsed).material.uColor = s.material.uColor ∧
    (frameTick s elapsed).material.uTexture = s.material.uTexture ∧
    (frameTick s elapsed).geometry = s.geometry :=
  ⟨rfl, rfl, rfl, rfl⟩

/-- Claim C6: while the texture load is pending the scene contains no
mesh (empty fallback); if the load fails or never resolves the scene
stays empty (no error channel exists in the model); once it resolves,
the scene is exactly one mesh bearing the wave shader material. -/
theorem suspense_render_states :
    renderScene LoadState.pending = [] ∧
    renderScene LoadState.failed = [] ∧
    ∀ image, renderScene (LoadState.resolved image) = [waveMesh image] ∧
      (renderScene (LoadState.resolved image)).length = 1 :=
  ⟨rfl, rfl, fun _ => ⟨rfl, rfl⟩⟩

/-- Claim C7: the geometry is the fixed `0.4 × 0.6` plane subdivided
`16 × 16`; a frame tick never changes the geometry, and the mesh
constructed after any successful texture load carries exactly this
geometry. -/
theorem geometry_fixed_invariant :
    wavePlaneGeometry.width = 2 / 5 ∧
    wavePlaneGeometry.height = 3 / 5 ∧
    wavePlaneGeometry.widthSegments = 16 ∧
    wavePlaneGeometry.heightSegments = 16 ∧
    (∀ s elapsed, (frameTick s elapsed).geometry = s.geometry) ∧
    (∀ image, waveMesh image = SceneNode.mesh wavePlaneGeometry (waveMaterial image)) :=
  ⟨rfl, rfl, rfl, rfl, fun _ _ => rfl, fun _ => rfl⟩

/-- Claim C8: the shader program is deterministic: two evaluations on
equal input sets (same uniforms, matrices and vertex attributes)
produce identical vertex outputs and fragment colors. -/
theorem shader_deterministic (i1 i2 : ShaderInputs) (h : i1 = i2) :
    evalShader i1 = evalShader i2 := by
  rw [h]

/-- Witness for the determinism theorem at a concrete input set. -/
theorem shader_deterministic_witness :
    evalShader demoInputs = evalShader demoInputs :=
  shader_deterministic demoInputs demoInputs rfl

/-- Claim C9 (bug evaluation): the `App` fragment renders the heading,
the canvas, and additionally the literal text node `";"` coming from
the stray semicolon after `<Scene />`; its DOM output is therefore not
just the heading and the canvas. -/
theorem app_dom_has_stray_text :
    appDom = [DomNode.heading "Lorem Ipsum Dolor", DomNode.canvasSurface, DomNode.textNode ";"] ∧
    appDom ≠ [DomNode.heading "Lorem Ipsum Dolor", DomNode.canvasSurface] :=
  ⟨rfl, of_decide_eq_true (by with_unfolding_all rfl)⟩

/-- Claim C10: the per-frame callback dereferences `ref.current`
unconditionally: when the material is not yet mounted (`none`) the
write fails with a `TypeError` instead of being skipped, and when it is
mounted the callback performs exactly the `uTime` write. -/
theorem frame_callback_unguarded (m : Material) (elapsed : ℚ) :
    frameCallback none elapsed
      = Except.error "TypeError: cannot set properties of undefined" ∧
    frameCallback (some m) elapsed = Except.ok (updateMaterial m elapsed) :=
  ⟨rfl, rfl⟩

